import Mathlib

/-!
Shallow embedding of the nexent backend's agent-versioning subsystem
(`backend/services/agent_version_service.py`, `backend/database/agent_version_db.py`)
and of its invitation-code subsystem (`backend/services/invitation_service.py`),
together with theorems settling the specification claims about them.

Database rows are modelled as Lean records, tables as lists of rows in
insertion order, and each database-access function as a pure function over a
`DBState`.  SQLAlchemy's `.first()` becomes `List.find?`, `.all()` with a
filter becomes `List.filter`, an `update()` statement becomes `List.map` of a
conditional row update together with the row count of matched rows, and an
`insert()` becomes a list append.  Raising an exception is modelled by
returning `Except.error`; every service operation returns the (possibly
updated) state alongside the `Except` result, so that an operation that raises
before performing any write returns the state unchanged.

The ORM column declarations (`database/db_models.py`) are not under `src/`;
the row records below are modelled from the spec's data-model table
(spec.md section 3).  Columns popped before an insert take the column
defaults on insert: `'N'` for `delete_flag`, NULL (`none`) for the audit
columns.
-/

deriving instance DecidableEq for Except

namespace Nexent

/-- Payload columns of an `AgentInfo` row that the versioning code copies
verbatim between draft and snapshots (every column other than the key,
pointer and audit columns). -/
structure AgentPayload where
  name : Option String
  display_name : Option String
  description : Option String
  duty_prompt : Option String
  model_id : Option Nat
  business_logic_model_id : Option Nat
  max_steps : Option Nat
  enabled : Bool
  is_new : Bool
  group_ids : Option String
deriving DecidableEq, Inhabited

/-- Row of the `AgentInfo` table: one row per `(agent_id, version_no)`;
`version_no = 0` is the mutable draft, other values are immutable snapshots. -/
structure AgentRow where
  agent_id : Nat
  tenant_id : String
  version_no : Nat
  current_version_no : Option Nat
  payload : AgentPayload
  create_time : Option Nat
  update_time : Option Nat
  created_by : Option String
  updated_by : Option String
  delete_flag : String
deriving DecidableEq

/-- Row of the `ToolInstance` table (per-agent tool binding, version scoped). -/
structure ToolRow where
  agent_id : Nat
  tenant_id : String
  version_no : Nat
  tool_id : Nat
  enabled : Bool
  params : String
  create_time : Option Nat
  update_time : Option Nat
  created_by : Option String
  updated_by : Option String
  delete_flag : String
deriving DecidableEq, Inhabited

/-- Row of the `AgentRelation` table (parent to sub-agent edge, version scoped). -/
structure RelRow where
  parent_agent_id : Nat
  tenant_id : String
  version_no : Nat
  selected_agent_id : Nat
  create_time : Option Nat
  update_time : Option Nat
  created_by : Option String
  updated_by : Option String
  delete_flag : String
deriving DecidableEq

/-- Row of the `AgentVersion` table: the version registry, one row per publish. -/
structure VersionRow where
  id : Nat
  agent_id : Nat
  tenant_id : String
  version_no : Nat
  version_name : Option String
  release_note : Option String
  source_type : String
  source_version_no : Option Nat
  status : String
  created_by : Option String
  updated_by : Option String
  create_time : Option Nat
  update_time : Option Nat
  delete_flag : String
deriving DecidableEq

/-- Database state for the versioning subsystem: the four tables in insertion
order, the id sequence backing `ag_agent_version.id`, the model registry
(display names, for `get_model_by_model_id`), and the database clock used by
`func.now()`. -/
structure DBState where
  agents : List AgentRow
  tools : List ToolRow
  relations : List RelRow
  versions : List VersionRow
  next_version_id : Nat
  models : List (Nat × String)
  now : Nat
deriving DecidableEq

/-! Constants from `database/agent_version_db.py`. -/

def SOURCE_TYPE_NORMAL : String := "NORMAL"
def SOURCE_TYPE_ROLLBACK : String := "ROLLBACK"
def STATUS_RELEASED : String := "RELEASED"
def STATUS_DISABLED : String := "DISABLED"
def STATUS_ARCHIVED : String := "ARCHIVED"

/-! Database-access functions, from `database/agent_version_db.py`. -/

/-- Predicate of the `AgentVersion` filter used by `search_version_by_version_no`,
`delete_version` and (without the version number) `query_version_list`. -/
def versionRowMatch (agent_id : Nat) (tenant_id : String) (version_no : Nat)
    (v : VersionRow) : Bool :=
  v.agent_id == agent_id && v.tenant_id == tenant_id &&
    v.version_no == version_no && v.delete_flag == "N"

/-- Embeds `search_version_by_version_no`: first live registry row for the
given agent, tenant and version number. -/
def search_version_by_version_no (st : DBState) (agent_id : Nat)
    (tenant_id : String) (version_no : Nat) : Option VersionRow :=
  st.versions.find? (versionRowMatch agent_id tenant_id version_no)

/-- Descending insertion into a list already sorted by `version_no` descending
(the `order_by(version_no.desc())` of `query_version_list`). -/
def insertVersionDesc (v : VersionRow) : List VersionRow → List VersionRow
  | [] => [v]
  | w :: ws => if v.version_no ≤ w.version_no then w :: insertVersionDesc v ws
      else v :: w :: ws

/-- Insertion sort by `version_no` descending. -/
def sortVersionDesc : List VersionRow → List VersionRow
  | [] => []
  | v :: vs => insertVersionDesc v (sortVersionDesc vs)

/-- Embeds `query_version_list`: live registry rows of the agent, ordered by
`version_no` descending. -/
def query_version_list (st : DBState) (agent_id : Nat) (tenant_id : String) :
    List VersionRow :=
  sortVersionDesc (st.versions.filter fun v =>
    v.agent_id == agent_id && v.tenant_id == tenant_id && v.delete_flag == "N")

/-- Predicate of the `AgentInfo` filter of `query_agent_snapshot` (and of the
version-bounded queries built on it). -/
def agentRowMatch (agent_id : Nat) (tenant_id : String) (version_no : Nat)
    (a : AgentRow) : Bool :=
  a.agent_id == agent_id && a.tenant_id == tenant_id &&
    a.version_no == version_no && a.delete_flag == "N"

/-- Predicate of the `ToolInstance` filter of `query_agent_snapshot`. -/
def toolRowMatch (agent_id : Nat) (tenant_id : String) (version_no : Nat)
    (t : ToolRow) : Bool :=
  t.agent_id == agent_id && t.tenant_id == tenant_id &&
    t.version_no == version_no && t.delete_flag == "N"

/-- Predicate of the `AgentRelation` filter of `query_agent_snapshot`. -/
def relRowMatch (agent_id : Nat) (tenant_id : String) (version_no : Nat)
    (r : RelRow) : Bool :=
  r.parent_agent_id == agent_id && r.tenant_id == tenant_id &&
    r.version_no == version_no && r.delete_flag == "N"

/-- Predicate of the `AgentInfo` filter for the live draft row
(`version_no == 0 and delete_flag == 'N'`). -/
def draftRowMatch (agent_id : Nat) (tenant_id : String) (a : AgentRow) : Bool :=
  agentRowMatch agent_id tenant_id 0 a

/-- Embeds `query_current_version_no`: the draft row's `current_version_no`,
or `None` when there is no live draft. -/
def query_current_version_no (st : DBState) (agent_id : Nat)
    (tenant_id : String) : Option Nat :=
  match st.agents.find? (draftRowMatch agent_id tenant_id) with
  | some a => a.current_version_no
  | none => none

/-- Embeds `query_agent_snapshot`: the live agent row, tool rows and relation
rows of one version of an agent. -/
def query_agent_snapshot (st : DBState) (agent_id : Nat) (tenant_id : String)
    (version_no : Nat) : Option AgentRow × List ToolRow × List RelRow :=
  (st.agents.find? (agentRowMatch agent_id tenant_id version_no),
   st.tools.filter (toolRowMatch agent_id tenant_id version_no),
   st.relations.filter (relRowMatch agent_id tenant_id version_no))

/-- Embeds `query_agent_draft`: the snapshot query at `version_no = 0`. -/
def query_agent_draft (st : DBState) (agent_id : Nat) (tenant_id : String) :
    Option AgentRow × List ToolRow × List RelRow :=
  query_agent_snapshot st agent_id tenant_id 0

/-- Embeds `insert_version`: appends a registry row; the id column is drawn
from the database sequence, which the passed row's `id` field does not set. -/
def insert_version (st : DBState) (version_data : VersionRow) : DBState × Nat :=
  let vid := st.next_version_id
  ({ st with versions := st.versions ++ [{ version_data with id := vid }],
             next_version_id := vid + 1 }, vid)

/-- Row effect of the `update()` of `update_agent_current_version` on one
`AgentInfo` row. -/
def setCurrentVersion (agent_id : Nat) (tenant_id : String)
    (current_version_no : Nat) (a : AgentRow) : AgentRow :=
  if draftRowMatch agent_id tenant_id a then
    { a with current_version_no := some current_version_no }
  else a

/-- Embeds `update_agent_current_version`: sets `current_version_no` on every
live draft row of the agent and returns the row count. -/
def update_agent_current_version (st : DBState) (agent_id : Nat)
    (tenant_id : String) (current_version_no : Nat) : DBState × Nat :=
  ({ st with agents :=
      st.agents.map (setCurrentVersion agent_id tenant_id current_version_no) },
   st.agents.countP (draftRowMatch agent_id tenant_id))

/-- Embeds `insert_agent_snapshot`: appends an `AgentInfo` row. -/
def insert_agent_snapshot (st : DBState) (agent_data : AgentRow) : DBState :=
  { st with agents := st.agents ++ [agent_data] }

/-- Embeds `insert_tool_snapshot`: appends a `ToolInstance` row. -/
def insert_tool_snapshot (st : DBState) (tool_data : ToolRow) : DBState :=
  { st with tools := st.tools ++ [tool_data] }

/-- Embeds `insert_relation_snapshot`: appends an `AgentRelation` row. -/
def insert_relation_snapshot (st : DBState) (relation_data : RelRow) : DBState :=
  { st with relations := st.relations ++ [relation_data] }

/-- Embeds `get_next_version_no`: `(max(version_no) or 0) + 1` over the live
`AgentInfo` rows of the agent. -/
def get_next_version_no (st : DBState) (agent_id : Nat) (tenant_id : String) :
    Nat :=
  (((st.agents.filter fun a =>
      a.agent_id == agent_id && a.tenant_id == tenant_id && a.delete_flag == "N"
    ).map (·.version_no)).foldr Nat.max 0) + 1

/-- Row effect of the `update()` of `delete_version` on one registry row. -/
def softDeleteVersionRow (agent_id : Nat) (tenant_id : String)
    (version_no : Nat) (deleted_by : String) (now : Nat) (v : VersionRow) :
    VersionRow :=
  if versionRowMatch agent_id tenant_id version_no v then
    { v with delete_flag := "Y", updated_by := some deleted_by,
             update_time := some now }
  else v

/-- Embeds `delete_version`: soft-deletes every live registry row of the
version (`delete_flag := 'Y'`, stamping `updated_by` and `update_time`) and
returns the row count. -/
def delete_version (st : DBState) (agent_id : Nat) (tenant_id : String)
    (version_no : Nat) (deleted_by : String) : DBState × Nat :=
  ({ st with versions :=
      st.versions.map (softDeleteVersionRow agent_id tenant_id version_no deleted_by st.now) },
   st.versions.countP (versionRowMatch agent_id tenant_id version_no))

/-! Service layer, from `backend/services/agent_version_service.py`. -/

/-- Result dictionary of `publish_version_impl`. -/
structure PublishResult where
  id : Nat
  version_no : Nat
  message : String
deriving DecidableEq

/-- Agent-snapshot row built by `publish_version_impl` lines 70-74: copy the
draft, pop `version_no` and `current_version_no`, set the new `version_no`,
and apply `_remove_audit_fields_for_insert` (the popped audit columns take
their defaults on insert: NULL, and `'N'` for `delete_flag`). -/
def stripAgentForInsert (new_version_no : Nat) (draft : AgentRow) : AgentRow :=
  { draft with version_no := new_version_no, current_version_no := none,
               create_time := none, update_time := none,
               created_by := none, updated_by := none, delete_flag := "N" }

/-- Tool-snapshot row built by the loop at `publish_version_impl` lines 80-85. -/
def stripToolForInsert (new_version_no : Nat) (tool : ToolRow) : ToolRow :=
  { tool with version_no := new_version_no,
              create_time := none, update_time := none,
              created_by := none, updated_by := none, delete_flag := "N" }

/-- Relation-snapshot row built by the loop at `publish_version_impl`
lines 88-93. -/
def stripRelForInsert (new_version_no : Nat) (rel : RelRow) : RelRow :=
  { rel with version_no := new_version_no,
             create_time := none, update_time := none,
             created_by := none, updated_by := none, delete_flag := "N" }

/-- Embeds `publish_version_impl`: copy the draft (agent, tools, relations) to
a freshly numbered version, insert a `RELEASED` registry row, and point the
draft's `current_version_no` at the new number.  Raising `ValueError` when no
draft exists is modelled by returning the untouched state with an error. -/
def publish_version_impl (st : DBState) (agent_id : Nat) (tenant_id : String)
    (user_id : String) (version_name : Option String)
    (release_note : Option String) (source_type : String)
    (source_version_no : Option Nat) : DBState × Except String PublishResult :=
  match query_agent_draft st agent_id tenant_id with
  | (none, _, _) => (st, .error "Agent draft not found")
  | (some agent_draft, tools_draft, relations_draft) =>
    let new_version_no := get_next_version_no st agent_id tenant_id
    let st := insert_agent_snapshot st (stripAgentForInsert new_version_no agent_draft)
    let st := tools_draft.foldl
      (fun s tool => insert_tool_snapshot s (stripToolForInsert new_version_no tool)) st
    let st := relations_draft.foldl
      (fun s rel => insert_relation_snapshot s (stripRelForInsert new_version_no rel)) st
    let version_data : VersionRow :=
      { id := 0, tenant_id := tenant_id, agent_id := agent_id,
        version_no := new_version_no, version_name := version_name,
        release_note := release_note, source_type := source_type,
        source_version_no := source_version_no, status := STATUS_RELEASED,
        created_by := some user_id, updated_by := none,
        create_time := some st.now, update_time := none, delete_flag := "N" }
    let (st, version_id) := insert_version st version_data
    let (st, _) := update_agent_current_version st agent_id tenant_id new_version_no
    (st, .ok { id := version_id, version_no := new_version_no,
               message := "Version published successfully" })

/-- Registry row that one publish inserts (the `version_data` dictionary of
`publish_version_impl` lines 96-106, with the id drawn from the sequence and
the insert defaults applied). -/
def publishVersionRow (st : DBState) (agent_id : Nat) (tenant_id : String)
    (user_id : String) (version_name release_note : Option String)
    (source_type : String) (source_version_no : Option Nat)
    (new_version_no : Nat) : VersionRow :=
  { id := st.next_version_id, agent_id := agent_id, tenant_id := tenant_id,
    version_no := new_version_no, version_name := version_name,
    release_note := release_note, source_type := source_type,
    source_version_no := source_version_no, status := STATUS_RELEASED,
    created_by := some user_id, updated_by := none,
    create_time := some st.now, update_time := none, delete_flag := "N" }

/-- Result dictionary of `rollback_version_impl`. -/
structure RollbackResult where
  message : String
  version_no : Nat
  version_name : Option String
deriving DecidableEq

/-- Embeds `rollback_version_impl`: verify the target version exists, then
update only the draft's `current_version_no`.  The `ValueError` raised when
the target is missing happens before any write, so the state is unchanged. -/
def rollback_version_impl (st : DBState) (agent_id : Nat) (tenant_id : String)
    (target_version_no : Nat) : DBState × Except String RollbackResult :=
  match search_version_by_version_no st agent_id tenant_id target_version_no with
  | none => (st, .error ("Version " ++ toString target_version_no ++ " not found"))
  | some version =>
    let (st, rows_affected) :=
      update_agent_current_version st agent_id tenant_id target_version_no
    if rows_affected == 0 then (st, .error "Agent draft not found")
    else
      (st, .ok { message := "Successfully rolled back to version " ++
                   toString target_version_no,
                 version_no := target_version_no,
                 version_name := version.version_name })

/-- Embeds `delete_version_impl`: refuse to delete a missing version, the
currently published version, or the draft (`version_no = 0`); otherwise
soft-delete the registry row. -/
def delete_version_impl (st : DBState) (agent_id : Nat) (tenant_id : String)
    (user_id : String) (version_no : Nat) : DBState × Except String String :=
  match search_version_by_version_no st agent_id tenant_id version_no with
  | none => (st, .error ("Version " ++ toString version_no ++ " not found"))
  | some _ =>
    let current_version_no := query_current_version_no st agent_id tenant_id
    if current_version_no == some version_no then
      (st, .error "Cannot delete the current published version")
    else if version_no == 0 then
      (st, .error "Cannot delete draft version")
    else
      let (st, rows_affected) :=
        delete_version st agent_id tenant_id version_no user_id
      if rows_affected == 0 then
        (st, .error ("Version " ++ toString version_no ++ " not found"))
      else
        (st, .ok ("Version " ++ toString version_no ++ " deleted successfully"))

/-- Modelled from the spec: `database/model_management_db.get_model_by_model_id`
is not under `src/`; per spec.md section 4.2 the detail view "resolves model
display names", so the lookup returns the registered display name of a model
id, or `None` when the model is unknown. -/
def get_model_by_model_id (st : DBState) (model_id : Nat) : Option String :=
  (st.models.find? fun p => p.1 == model_id).map (·.2)

/-- Splitting of a character list at commas (accumulator holds the current
chunk reversed). -/
def splitCommaAux : List Char → List Char → List (List Char)
  | [], acc => [acc.reverse]
  | c :: cs, acc =>
    if c = ',' then acc.reverse :: splitCommaAux cs []
    else splitCommaAux cs (c :: acc)

/-- Decimal reading of a nonempty digit chunk. -/
def digitsToNat? (l : List Char) : Option Nat :=
  if l ≠ [] ∧ l.all (·.isDigit) then
    some (l.foldl (fun n c => n * 10 + (c.toNat - 48)) 0)
  else none

/-- Modelled from the spec: `utils/str_utils.convert_string_to_list` is not
under `src/`; per spec.md section 3, `group_ids` is a serialized list, so the
conversion parses the comma-serialized id list back into a list. -/
def convert_string_to_list (s : String) : List Nat :=
  (splitCommaAux s.data []).filterMap digitsToNat?

/-- Embeds `_check_version_snapshot_availability` for a present agent row:
flag a missing model configuration, an empty tool list, or a tool list with
no enabled tool. -/
def checkVersionSnapshotAvailability (model_id : Option Nat)
    (tool_instances : List ToolRow) : Bool × List String :=
  let reasons : List String :=
    (if model_id = none ∨ model_id = some 0 then ["model_not_configured"] else [])
      ++ (if tool_instances.isEmpty then ["no_tools"]
          else if tool_instances.any (·.enabled) then []
          else ["all_tools_disabled"])
  (reasons.isEmpty, reasons)

/-- Nested `version` object of a version-detail result. -/
structure VersionMeta where
  version_name : Option String
  version_status : String
  release_note : Option String
  source_type : String
  source_version_no : Option Nat
deriving DecidableEq, Inhabited

/-- Version-detail dictionary built by `get_version_detail_impl` and
`_get_version_detail_or_draft`: the agent snapshot's fields (minus
`current_version_no`), the tool rows, the sub-agent id list, resolved model
names, parsed `group_ids`, and the availability flag (absent on the draft
branch of `_get_version_detail_or_draft`, hence optional). -/
structure VersionDetail where
  version : VersionMeta
  agent_id : Nat
  tenant_id : String
  version_no : Nat
  payload : AgentPayload
  tools : List ToolRow
  sub_agent_id_list : List Nat
  model_name : Option String
  business_logic_model_name : Option String
  group_ids : List Nat
  is_available : Option Bool
  unavailable_reasons : List String
deriving DecidableEq, Inhabited

/-- Model-name resolution used by `get_version_detail_impl` lines 192-196 and
repeated by `_get_version_detail_or_draft` lines 525-529: a lookup only when
the id is present and non-zero. -/
def resolveModelName (st : DBState) (model_id : Option Nat) : Option String :=
  match model_id with
  | some mid => if mid ≠ 0 then get_model_by_model_id st mid else none
  | none => none

/-- Parsing of `group_ids` used by `get_version_detail_impl` lines 206-209
(and repeated at lines 539-542): parse when present, else the empty list. -/
def resolveGroupIds (group_ids : Option String) : List Nat :=
  match group_ids with
  | some s => convert_string_to_list s
  | none => []

/-- Embeds `get_version_detail_impl`: registry metadata plus the re-hydrated
snapshot, model names, group ids and availability. -/
def get_version_detail_impl (st : DBState) (agent_id : Nat) (tenant_id : String)
    (version_no : Nat) : Except String VersionDetail :=
  match search_version_by_version_no st agent_id tenant_id version_no with
  | none => .error ("Version " ++ toString version_no ++ " not found")
  | some version =>
    match query_agent_snapshot st agent_id tenant_id version_no with
    | (none, _, _) =>
        .error ("Agent snapshot for version " ++ toString version_no ++ " not found")
    | (some agent_snapshot, tools_snapshot, relations_snapshot) =>
      let availability := checkVersionSnapshotAvailability
        agent_snapshot.payload.model_id tools_snapshot
      .ok { version := { version_name := version.version_name,
                         version_status := version.status,
                         release_note := version.release_note,
                         source_type := version.source_type,
                         source_version_no := version.source_version_no },
            agent_id := agent_snapshot.agent_id,
            tenant_id := agent_snapshot.tenant_id,
            version_no := agent_snapshot.version_no,
            payload := agent_snapshot.payload,
            tools := tools_snapshot,
            sub_agent_id_list := relations_snapshot.map (·.selected_agent_id),
            model_name := resolveModelName st agent_snapshot.payload.model_id,
            business_logic_model_name :=
              resolveModelName st agent_snapshot.payload.business_logic_model_id,
            group_ids := resolveGroupIds agent_snapshot.payload.group_ids,
            is_available := some availability.1,
            unavailable_reasons := availability.2 }

/-- Embeds `_get_version_detail_or_draft`: draft data for version 0, the
published detail otherwise; both branches then (re)resolve the model names
and parse `group_ids` exactly as the source repeats those steps. -/
def getVersionDetailOrDraft (st : DBState) (agent_id : Nat) (tenant_id : String)
    (version_no : Nat) : Except String VersionDetail :=
  let base : Except String VersionDetail :=
    if version_no = 0 then
      match query_agent_draft st agent_id tenant_id with
      | (none, _, _) => .error "Draft version not found"
      | (some agent_draft, tools_draft, relations_draft) =>
        .ok { version := { version_name := some "Draft",
                           version_status := "DRAFT",
                           release_note := some "",
                           source_type := "DRAFT",
                           source_version_no := some 0 },
              agent_id := agent_draft.agent_id,
              tenant_id := agent_draft.tenant_id,
              version_no := agent_draft.version_no,
              payload := agent_draft.payload,
              tools := tools_draft,
              sub_agent_id_list := relations_draft.map (·.selected_agent_id),
              model_name := none,
              business_logic_model_name := none,
              group_ids := [],
              is_available := none,
              unavailable_reasons := [] }
    else get_version_detail_impl st agent_id tenant_id version_no
  match base with
  | .error e => .error e
  | .ok result =>
    .ok { result with
          model_name := resolveModelName st result.payload.model_id,
          business_logic_model_name :=
            resolveModelName st result.payload.business_logic_model_id,
          group_ids := resolveGroupIds result.payload.group_ids }

/-- Value of a compared field in a difference entry: the fixed field list
mixes optional strings, the optional `max_steps` number, and the two counts. -/
inductive FieldVal where
  | ostr : Option String → FieldVal
  | onat : Option Nat → FieldVal
  | cnt : Nat → FieldVal
deriving DecidableEq

/-- Difference entry `{field, label, value_a, value_b}` of
`compare_versions_impl`. -/
structure DiffEntry where
  field : String
  label : String
  value_a : FieldVal
  value_b : FieldVal
deriving DecidableEq

/-- Conditional difference block: the entry when the compared values differ,
nothing otherwise (one `if`/`append` of `compare_versions_impl`). -/
def diffBlock (c : Prop) [Decidable c] (e : DiffEntry) : List DiffEntry :=
  if c then [e] else []

/-- Differences list of `compare_versions_impl` lines 413-480: the seven
hardcoded field comparisons, in source order. -/
def mkDifferences (version_a version_b : VersionDetail) : List DiffEntry :=
  diffBlock (version_a.payload.name ≠ version_b.payload.name)
    { field := "name", label := "Name",
      value_a := .ostr version_a.payload.name,
      value_b := .ostr version_b.payload.name }
  ++ diffBlock (version_a.model_name ≠ version_b.model_name)
    { field := "model_name", label := "Model",
      value_a := .ostr version_a.model_name,
      value_b := .ostr version_b.model_name }
  ++ diffBlock (version_a.payload.max_steps ≠ version_b.payload.max_steps)
    { field := "max_steps", label := "Max Steps",
      value_a := .onat version_a.payload.max_steps,
      value_b := .onat version_b.payload.max_steps }
  ++ diffBlock (version_a.payload.description ≠ version_b.payload.description)
    { field := "description", label := "Description",
      value_a := .ostr version_a.payload.description,
      value_b := .ostr version_b.payload.description }
  ++ diffBlock (version_a.payload.duty_prompt ≠ version_b.payload.duty_prompt)
    { field := "duty_prompt", label := "Duty Prompt",
      value_a := .ostr version_a.payload.duty_prompt,
      value_b := .ostr version_b.payload.duty_prompt }
  ++ diffBlock (version_a.tools.length ≠ version_b.tools.length)
    { field := "tools_count", label := "Tools Count",
      value_a := .cnt version_a.tools.length,
      value_b := .cnt version_b.tools.length }
  ++ diffBlock (version_a.sub_agent_id_list.length ≠ version_b.sub_agent_id_list.length)
    { field := "sub_agents_count", label := "Sub Agents Count",
      value_a := .cnt version_a.sub_agent_id_list.length,
      value_b := .cnt version_b.sub_agent_id_list.length }

/-- Result dictionary of `compare_versions_impl`. -/
structure CompareResult where
  version_a : VersionDetail
  version_b : VersionDetail
  differences : List DiffEntry
deriving DecidableEq

/-- Embeds `compare_versions_impl`: fetch both version details (version 0 as
draft) and diff the fixed field list. -/
def compare_versions_impl (st : DBState) (agent_id : Nat) (tenant_id : String)
    (version_no_a version_no_b : Nat) : Except String CompareResult :=
  match getVersionDetailOrDraft st agent_id tenant_id version_no_a with
  | .error e => .error e
  | .ok version_a =>
    match getVersionDetailOrDraft st agent_id tenant_id version_no_b with
    | .error e => .error e
    | .ok version_b =>
      .ok { version_a := version_a, version_b := version_b,
            differences := mkDifferences version_a version_b }

/-!
Invitation subsystem, from `backend/services/invitation_service.py`.

The database-access module `database/invitation_db.py` is not under `src/`;
its functions are modelled from the spec's data model (spec.md section 3:
`InvitationCode` rows, `InvitationRecord` rows with "one row per use;
capacity = max records") as straightforward row lookups over an
`InvState`.  Wall-clock time (`datetime.now()`) is passed explicitly as a
`now : Nat` argument; `expiry_date` is modelled as an already-parsed optional
timestamp, which covers the source's `fromisoformat` branch for well-formed
dates.  `_normalize_invitation_data` only coerces dictionary value types and
is the identity in this typed model.
-/

/-- Row of the `InvitationCode` table (modelled from the spec's data-model
table; `database/invitation_db.py` is not under `src/`). -/
structure Invitation where
  invitation_id : Nat
  tenant_id : String
  invitation_code : String
  code_type : String
  group_ids : List Nat
  capacity : Nat
  expiry_date : Option Nat
  status : String
  delete_flag : String
deriving DecidableEq

/-- Invitation-store state: the code rows and the usage records
(`(invitation_id, user_id)` pairs, one per use), plus the record id
sequence. -/
structure InvState where
  invitations : List Invitation
  records : List (Nat × String)
  next_record_id : Nat
deriving DecidableEq

/-- Modelled from the spec: `database/invitation_db.query_invitation_by_code`
is not under `src/`; it looks an invitation code row up by exact
`invitation_code` match among live rows. -/
def query_invitation_by_code (st : InvState) (code : String) :
    Option Invitation :=
  st.invitations.find? fun i => i.invitation_code == code && i.delete_flag == "N"

/-- Modelled from the spec: `database/invitation_db.query_invitation_by_id`
is not under `src/`; it looks a live invitation row up by id. -/
def query_invitation_by_id (st : InvState) (invitation_id : Nat) :
    Option Invitation :=
  st.invitations.find? fun i =>
    i.invitation_id == invitation_id && i.delete_flag == "N"

/-- Modelled from the spec: `database/invitation_db.count_invitation_usage`
is not under `src/`; per the spec, usage is the number of `InvitationRecord`
rows of the invitation ("one row per use; capacity = max records"). -/
def count_invitation_usage (st : InvState) (invitation_id : Nat) : Nat :=
  (st.records.filter fun r => r.1 == invitation_id).length

/-- Modelled from the spec: `database/invitation_db.add_invitation_record`
is not under `src/`; it inserts one usage record and returns its id. -/
def add_invitation_record (st : InvState) (invitation_id : Nat)
    (user_id : String) : InvState × Nat :=
  let rid := st.next_record_id
  ({ st with records := st.records ++ [(invitation_id, user_id)],
             next_record_id := rid + 1 }, rid)

/-- Modelled from the spec: the `{"status": new_status}` update that
`update_invitation_code_status` performs through
`database/invitation_db.modify_invitation` (not under `src/`). -/
def modify_invitation_status (st : InvState) (invitation_id : Nat)
    (new_status : String) : InvState :=
  { st with invitations := st.invitations.map fun i =>
      if i.invitation_id == invitation_id && i.delete_flag == "N" then
        { i with status := new_status }
      else i }

/-- Embeds `_calculate_current_status` (the read-path status derivation):
keep the stored status, overwrite it with `EXPIRE` when past expiry, then
overwrite it with `RUN_OUT` when usage reached capacity; data without an
`invitation_id` (Python-falsy, i.e. 0) is returned unchanged. -/
def calculateCurrentStatus (now : Nat) (st : InvState) (inv : Invitation) :
    Invitation :=
  if inv.invitation_id == 0 then inv
  else
    let usage_count := count_invitation_usage st inv.invitation_id
    let new_status := inv.status
    let new_status :=
      match inv.expiry_date with
      | some expiry_datetime => if now > expiry_datetime then "EXPIRE" else new_status
      | none => new_status
    let new_status := if usage_count ≥ inv.capacity then "RUN_OUT" else new_status
    { inv with status := new_status }

/-- Embeds `get_invitation_by_code`: the stored row with its status
recomputed by `_calculate_current_status` (normalization is the identity
here). -/
def get_invitation_by_code (now : Nat) (st : InvState) (code : String) :
    Option Invitation :=
  match query_invitation_by_code st code with
  | some invitation_data => some (calculateCurrentStatus now st invitation_data)
  | none => none

/-- Embeds the status resolution of `update_invitation_code_status` (the
write-path derivation): start from `IN_USE`, set `EXPIRE` when past expiry,
and only when still `IN_USE` set `RUN_OUT` on exhausted capacity
("Priority: EXPIRE > RUN_OUT > IN_USE"). -/
def resolveStatusForUpdate (now : Nat) (usage_count : Nat) (inv : Invitation) :
    String :=
  let new_status := "IN_USE"
  let new_status :=
    match inv.expiry_date with
    | some expiry_datetime => if now > expiry_datetime then "EXPIRE" else new_status
    | none => new_status
  if new_status == "IN_USE" && usage_count ≥ inv.capacity then "RUN_OUT"
  else new_status

/-- Embeds `update_invitation_code_status`: recompute the status from expiry
and usage and persist it when it changed; returns whether a write happened. -/
def update_invitation_code_status (now : Nat) (st : InvState)
    (invitation_id : Nat) : InvState × Bool :=
  match query_invitation_by_id st invitation_id with
  | none => (st, false)
  | some invitation_info =>
    let usage_count := count_invitation_usage st invitation_id
    let new_status := resolveStatusForUpdate now usage_count invitation_info
    if new_status ≠ invitation_info.status then
      (modify_invitation_status st invitation_id new_status, true)
    else (st, false)

/-- Embeds `check_invitation_available`: available iff the code exists, its
stored status is exactly `IN_USE`, and its usage count is below capacity;
expiry is not consulted. -/
def check_invitation_available (st : InvState) (invitation_code : String) :
    Bool :=
  match query_invitation_by_code st invitation_code with
  | none => false
  | some invitation =>
    if invitation.status ≠ "IN_USE" then false
    else count_invitation_usage st invitation.invitation_id < invitation.capacity

/-- Result dictionary of `use_invitation_code`. -/
structure UseResult where
  invitation_record_id : Nat
  invitation_code : String
  user_id : String
  invitation_id : Nat
  code_type : String
  group_ids : List Nat
deriving DecidableEq

/-- State transformer used to express that a computation never consults
expiry: it overwrites every invitation's `expiry_date` with a given value. -/
def setExpiryAll (st : InvState) (e : Option Nat) : InvState :=
  { st with invitations := st.invitations.map fun i => { i with expiry_date := e } }

/-- Embeds `use_invitation_code`: gate on `check_invitation_available`,
insert a usage record, then refresh the stored status. -/
def use_invitation_code (now : Nat) (st : InvState) (invitation_code : String)
    (user_id : String) : InvState × Except String UseResult :=
  if ¬ check_invitation_available st invitation_code then
    (st, .error ("Invitation code " ++ invitation_code ++ " is not available"))
  else
    match query_invitation_by_code st invitation_code with
    | none => (st, .error ("Invitation code " ++ invitation_code ++ " not found"))
    | some invitation_info =>
      let (st, record_id) :=
        add_invitation_record st invitation_info.invitation_id user_id
      let (st, _) :=
        update_invitation_code_status now st invitation_info.invitation_id
      (st, .ok { invitation_record_id := record_id,
                 invitation_code := invitation_code,
                 user_id := user_id,
                 invitation_id := invitation_info.invitation_id,
                 code_type := invitation_info.code_type,
                 group_ids := invitation_info.group_ids })

/-- Python's `str.upper()` on the generated alphanumeric codes: character-wise
ASCII uppercasing. -/
def pyUpper (s : String) : String :=
  ⟨s.data.map Char.toUpper⟩

/-- Embeds the retry loop of `_generate_unique_invitation_code`: `codes` is
the stream of candidates produced by `random.choices` at each attempt, `fuel`
the remaining attempts out of `max_attempts = 100`; a candidate that the
uniqueness check clears is returned uppercased, and exhausting the attempts
raises. -/
def generateUniqueAux (st : InvState) (codes : Nat → String) :
    Nat → Nat → Except String String
  | _, 0 => .error "Failed to generate unique invitation code after 100 attempts"
  | attempts, fuel + 1 =>
    let code := codes attempts
    if (query_invitation_by_code st code).isSome then
      generateUniqueAux st codes (attempts + 1) fuel
    else .ok (pyUpper code)

/-- Embeds `_generate_unique_invitation_code`: the bounded retry loop started
at attempt 0 with 100 attempts available. -/
def generate_unique_invitation_code (st : InvState) (codes : Nat → String) :
    Except String String :=
  generateUniqueAux st codes 0 100

/-! Concrete states used by the witness and counterexample theorems. -/

/-- Payload of the sample draft agent. -/
def samplePayload : AgentPayload :=
  { name := some "alpha", display_name := some "Alpha",
    description := some "main agent", duty_prompt := some "be helpful",
    model_id := some 7, business_logic_model_id := none, max_steps := some 5,
    enabled := true, is_new := false, group_ids := some "1,2" }

/-- Sample draft `AgentInfo` row (`version_no = 0`). -/
def sampleDraft : AgentRow :=
  { agent_id := 1, tenant_id := "t1", version_no := 0,
    current_version_no := none, payload := samplePayload,
    create_time := some 10, update_time := some 11,
    created_by := some "u0", updated_by := some "u0", delete_flag := "N" }

/-- Sample enabled draft tool row. -/
def sampleToolEnabled : ToolRow :=
  { agent_id := 1, tenant_id := "t1", version_no := 0, tool_id := 11,
    enabled := true, params := "search", create_time := some 10,
    update_time := some 11, created_by := some "u0", updated_by := some "u0",
    delete_flag := "N" }

/-- Sample disabled draft tool row. -/
def sampleToolDisabled : ToolRow :=
  { agent_id := 1, tenant_id := "t1", version_no := 0, tool_id := 12,
    enabled := false, params := "mail", create_time := some 10,
    update_time := some 11, created_by := some "u0", updated_by := some "u0",
    delete_flag := "N" }

/-- Sample draft relation row (one sub-agent). -/
def sampleRel : RelRow :=
  { parent_agent_id := 1, tenant_id := "t1", version_no := 0,
    selected_agent_id := 2, create_time := some 10, update_time := some 11,
    created_by := some "u0", updated_by := some "u0", delete_flag := "N" }

/-- Sample database state: one draft agent with two tools (one disabled) and
one sub-agent relation, no published version yet. -/
def sampleState : DBState :=
  { agents := [sampleDraft], tools := [sampleToolEnabled, sampleToolDisabled],
    relations := [sampleRel], versions := [], next_version_id := 1,
    models := [(7, "Model Seven")], now := 100 }

/-- State after publishing the sample draft once (version 1). -/
def sampleState1 : DBState :=
  (publish_version_impl sampleState 1 "t1" "u1" (some "v1") none
    SOURCE_TYPE_NORMAL none).1

/-- State after publishing the sample draft twice (versions 1 and 2). -/
def sampleState2 : DBState :=
  (publish_version_impl sampleState1 1 "t1" "u1" (some "v2") none
    SOURCE_TYPE_NORMAL none).1

/-- Sample invitation: capacity 5, expired at time 100, stored status still
`IN_USE`. -/
def sampleInvitation : Invitation :=
  { invitation_id := 1, tenant_id := "t1", invitation_code := "XYZ123",
    code_type := "USER_INVITE", group_ids := [1], capacity := 5,
    expiry_date := some 100, status := "IN_USE", delete_flag := "N" }

/-- Invitation state in which `sampleInvitation` is fully used (5 records). -/
def sampleInvStateFull : InvState :=
  { invitations := [sampleInvitation],
    records := [(1, "a"), (1, "b"), (1, "c"), (1, "d"), (1, "e")],
    next_record_id := 6 }

/-- Invitation state in which `sampleInvitation` has 2 of 5 uses. -/
def sampleInvStatePartial : InvState :=
  { invitations := [sampleInvitation], records := [(1, "a"), (1, "b")],
    next_record_id := 3 }

/-- Stored invitation whose (uppercase) code is `ABC123`. -/
def sampleInvitationABC : Invitation :=
  { invitation_id := 2, tenant_id := "t1", invitation_code := "ABC123",
    code_type := "USER_INVITE", group_ids := [], capacity := 1,
    expiry_date := none, status := "IN_USE", delete_flag := "N" }

/-- Invitation state holding the (uppercase) code `ABC123`. -/
def sampleInvStateABC : InvState :=
  { invitations := [sampleInvitationABC], records := [], next_record_id := 1 }

/-- Discriminator for modelled raising operations: `true` exactly when the
operation returned normally. -/
def isOkResult {ε α : Type} : Except ε α → Bool
  | .ok _ => true
  | .error _ => false

/-- Extractor for modelled raising operations, for use at concrete inputs
whose success is established separately. -/
def okValue {ε α : Type} [Inhabited α] : Except ε α → α
  | .ok a => a
  | .error _ => default

/-- Registry row created by the first publish of the sample draft. -/
def sampleVersionRow1 : VersionRow :=
  { id := 1, agent_id := 1, tenant_id := "t1", version_no := 1,
    version_name := some "v1", release_note := none, source_type := "NORMAL",
    source_version_no := none, status := "RELEASED", created_by := some "u1",
    updated_by := none, create_time := some 100, update_time := none,
    delete_flag := "N" }

/-- Version detail of the sample agent's published version 1. -/
def sampleDetail1 : VersionDetail :=
  okValue (getVersionDetailOrDraft sampleState1 1 "t1" 1)

/-! Helper lemmas. -/

theorem le_foldr_max {x : Nat} {l : List Nat} (h : x ∈ l) :
    x ≤ l.foldr Nat.max 0 := by
  induction l with
  | nil => cases h
  | cons y ys ih =>
    rcases List.mem_cons.mp h with rfl | h'
    · exact Nat.le_max_left _ _
    · exact Nat.le_trans (ih h') (Nat.le_max_right _ _)

theorem find?_map_of_pred_stable {α : Type} {f : α → α} {p : α → Bool}
    (hf : ∀ a, p (f a) = p a) (l : List α) :
    (l.map f).find? p = (l.find? p).map f := by
  rw [List.find?_map]
  have hpf : p ∘ f = p := funext hf
  rw [hpf]

theorem agentRowMatch_setCurrentVersion (aid aid' : Nat) (tid tid' : String)
    (vno n : Nat) (a : AgentRow) :
    agentRowMatch aid tid vno (setCurrentVersion aid' tid' n a) =
      agentRowMatch aid tid vno a := by
  unfold setCurrentVersion
  split <;> rfl

theorem draftRowMatch_setCurrentVersion (aid aid' : Nat) (tid tid' : String)
    (n : Nat) (a : AgentRow) :
    draftRowMatch aid tid (setCurrentVersion aid' tid' n a) =
      draftRowMatch aid tid a :=
  agentRowMatch_setCurrentVersion aid aid' tid tid' 0 n a

theorem setCurrentVersion_of_nonzero_version (aid : Nat) (tid : String)
    (n : Nat) (a : AgentRow) (h : a.version_no ≠ 0) :
    setCurrentVersion aid tid n a = a := by
  unfold setCurrentVersion
  rw [if_neg]
  intro hm
  simp only [draftRowMatch, agentRowMatch, Bool.and_eq_true, beq_iff_eq] at hm
  exact h hm.1.2

theorem foldl_insert_tool_snapshot (n : Nat) (l : List ToolRow) :
    ∀ s : DBState,
      l.foldl (fun s tool => insert_tool_snapshot s (stripToolForInsert n tool)) s =
        { s with tools := s.tools ++ l.map (stripToolForInsert n) } := by
  induction l with
  | nil => intro s; simp
  | cons t ts ih =>
    intro s
    rw [List.foldl_cons, ih]
    simp [insert_tool_snapshot]

theorem foldl_insert_relation_snapshot (n : Nat) (l : List RelRow) :
    ∀ s : DBState,
      l.foldl (fun s rel => insert_relation_snapshot s (stripRelForInsert n rel)) s =
        { s with relations := s.relations ++ l.map (stripRelForInsert n) } := by
  induction l with
  | nil => intro s; simp
  | cons r rs ih =>
    intro s
    rw [List.foldl_cons, ih]
    simp [insert_relation_snapshot]

/-- Unfolding of a successful publish: given the draft query's result, the
publish is exactly the three appended row sets, the appended registry row,
the bumped id sequence, and the repointed draft rows. -/
theorem publish_version_impl_ok (st : DBState) (aid : Nat) (tid : String)
    (uid : String) (vn rn : Option String) (sty : String) (svn : Option Nat)
    (draft : AgentRow) (tD : List ToolRow) (rD : List RelRow)
    (h : query_agent_draft st aid tid = (some draft, tD, rD)) :
    publish_version_impl st aid tid uid vn rn sty svn =
      ({ agents :=
           (st.agents ++ [stripAgentForInsert (get_next_version_no st aid tid) draft]).map
             (setCurrentVersion aid tid (get_next_version_no st aid tid)),
         tools := st.tools ++ tD.map (stripToolForInsert (get_next_version_no st aid tid)),
         relations := st.relations ++ rD.map (stripRelForInsert (get_next_version_no st aid tid)),
         versions := st.versions ++
           [publishVersionRow st aid tid uid vn rn sty svn (get_next_version_no st aid tid)],
         next_version_id := st.next_version_id + 1,
         models := st.models, now := st.now },
       .ok { id := st.next_version_id, version_no := get_next_version_no st aid tid,
             message := "Version published successfully" }) := by
  unfold publish_version_impl
  rw [h]
  simp only [insert_agent_snapshot, foldl_insert_tool_snapshot,
    foldl_insert_relation_snapshot, insert_version, update_agent_current_version,
    publishVersionRow]

theorem foldr_max_eq_zero {l : List Nat} (h : ∀ x ∈ l, x = 0) :
    l.foldr Nat.max 0 = 0 := by
  induction l with
  | nil => rfl
  | cons y ys ih =>
    rw [List.foldr_cons, h y (List.mem_cons_self y ys),
      ih fun x hx => h x (List.mem_cons_of_mem y hx)]
    rfl

theorem agentRowMatch_iff {aid : Nat} {tid : String} {vno : Nat} {a : AgentRow} :
    agentRowMatch aid tid vno a = true ↔
      a.agent_id = aid ∧ a.tenant_id = tid ∧ a.version_no = vno ∧
        a.delete_flag = "N" := by
  simp [agentRowMatch, and_assoc]

theorem toolRowMatch_iff {aid : Nat} {tid : String} {vno : Nat} {t : ToolRow} :
    toolRowMatch aid tid vno t = true ↔
      t.agent_id = aid ∧ t.tenant_id = tid ∧ t.version_no = vno ∧
        t.delete_flag = "N" := by
  simp [toolRowMatch, and_assoc]

theorem relRowMatch_iff {aid : Nat} {tid : String} {vno : Nat} {r : RelRow} :
    relRowMatch aid tid vno r = true ↔
      r.parent_agent_id = aid ∧ r.tenant_id = tid ∧ r.version_no = vno ∧
        r.delete_flag = "N" := by
  simp [relRowMatch, and_assoc]

theorem versionRowMatch_iff {aid : Nat} {tid : String} {vno : Nat}
    {v : VersionRow} :
    versionRowMatch aid tid vno v = true ↔
      v.agent_id = aid ∧ v.tenant_id = tid ∧ v.version_no = vno ∧
        v.delete_flag = "N" := by
  simp [versionRowMatch, and_assoc]

/-- Live `AgentInfo` rows of the agent are numbered strictly below the next
version number. -/
theorem agentRowMatch_version_lt_next (st : DBState) (aid : Nat) (tid : String)
    {vno : Nat} {a : AgentRow} (ha : a ∈ st.agents)
    (hm : agentRowMatch aid tid vno a = true) :
    a.version_no < get_next_version_no st aid tid := by
  obtain ⟨h1, h2, _, h4⟩ := agentRowMatch_iff.mp hm
  unfold get_next_version_no
  refine Nat.lt_succ_of_le (le_foldr_max ?_)
  refine List.mem_map_of_mem _ (List.mem_filter.mpr ⟨ha, ?_⟩)
  simp [h1, h2, h4]

theorem get_next_version_no_pos (st : DBState) (aid : Nat) (tid : String) :
    1 ≤ get_next_version_no st aid tid :=
  Nat.succ_le_succ (Nat.zero_le _)

/-- Splitting of a draft-query result into its three components. -/
theorem query_agent_draft_parts {st : DBState} {aid : Nat} {tid : String}
    {draft : AgentRow} {tD : List ToolRow} {rD : List RelRow}
    (h : query_agent_draft st aid tid = (some draft, tD, rD)) :
    st.agents.find? (agentRowMatch aid tid 0) = some draft ∧
      st.tools.filter (toolRowMatch aid tid 0) = tD ∧
      st.relations.filter (relRowMatch aid tid 0) = rD := by
  unfold query_agent_draft query_agent_snapshot at h
  exact ⟨congrArg (·.1) h, congrArg (·.2.1) h, congrArg (·.2.2) h⟩

/-- C4: for an agent whose only live `AgentInfo` row is the draft
(`version_no = 0`, no published snapshot rows), `publish_version_impl`
assigns `version_no = 1` to the new snapshot and registry row, and the
draft's `current_version_no` becomes 1 afterwards. -/
theorem publish_first_version_is_one (st : DBState) (aid : Nat) (tid : String)
    (uid : String) (vn rn : Option String) (sty : String) (svn : Option Nat)
    (draft : AgentRow) (tD : List ToolRow) (rD : List RelRow)
    (hdraft : query_agent_draft st aid tid = (some draft, tD, rD))
    (honly : ∀ a ∈ st.agents, a.agent_id = aid → a.tenant_id = tid →
      a.delete_flag = "N" → a.version_no = 0) :
    (publish_version_impl st aid tid uid vn rn sty svn).2 =
      .ok { id := st.next_version_id, version_no := 1,
            message := "Version published successfully" } ∧
    query_current_version_no (publish_version_impl st aid tid uid vn rn sty svn).1
      aid tid = some 1 := by
  have hnext : get_next_version_no st aid tid = 1 := by
    unfold get_next_version_no
    rw [foldr_max_eq_zero]
    intro x hx
    obtain ⟨a, haf, hav⟩ := List.mem_map.mp hx
    obtain ⟨ha, hp⟩ := List.mem_filter.mp haf
    simp only [Bool.and_eq_true, beq_iff_eq] at hp
    rw [← hav]
    exact honly a ha hp.1.1 hp.1.2 hp.2
  obtain ⟨h1, _, _⟩ := query_agent_draft_parts hdraft
  have hdm : draftRowMatch aid tid draft = true := List.find?_some h1
  rw [publish_version_impl_ok st aid tid uid vn rn sty svn draft tD rD hdraft, hnext]
  refine ⟨rfl, ?_⟩
  unfold query_current_version_no
  rw [find?_map_of_pred_stable (draftRowMatch_setCurrentVersion aid aid tid tid 1),
    List.find?_append]
  have hfind : st.agents.find? (draftRowMatch aid tid) = some draft := h1
  rw [hfind]
  simp [setCurrentVersion, hdm]

/-- No live agent row sits at the freshly computed version number. -/
theorem find?_agents_at_next_eq_none (st : DBState) (aid : Nat) (tid : String) :
    st.agents.find? (agentRowMatch aid tid (get_next_version_no st aid tid)) =
      none := by
  rw [List.find?_eq_none]
  intro a ha hm
  have hlt := agentRowMatch_version_lt_next st aid tid ha hm
  have heq := (agentRowMatch_iff.mp hm).2.2.1
  omega

/-- C1 (amended): a successful publish copies the draft agent row and all of
the draft's live tool and relation rows — enabled or not — to the new version
number with the audit fields reset, inserts exactly one `RELEASED` registry
row, and repoints the draft's `current_version_no`; reading the snapshot back
returns exactly the copied row sets. -/
theorem publish_copies_draft_row_sets (st : DBState) (aid : Nat) (tid : String)
    (uid : String) (vn rn : Option String) (sty : String) (svn : Option Nat)
    (draft : AgentRow) (tD : List ToolRow) (rD : List RelRow)
    (hdraft : query_agent_draft st aid tid = (some draft, tD, rD))
    (hwfT : ∀ t ∈ st.tools, t.agent_id = aid → t.tenant_id = tid →
      t.delete_flag = "N" → t.version_no < get_next_version_no st aid tid)
    (hwfR : ∀ r ∈ st.relations, r.parent_agent_id = aid → r.tenant_id = tid →
      r.delete_flag = "N" → r.version_no < get_next_version_no st aid tid) :
    (publish_version_impl st aid tid uid vn rn sty svn).2 =
      .ok { id := st.next_version_id,
            version_no := get_next_version_no st aid tid,
            message := "Version published successfully" } ∧
    query_agent_snapshot (publish_version_impl st aid tid uid vn rn sty svn).1
        aid tid (get_next_version_no st aid tid) =
      (some (stripAgentForInsert (get_next_version_no st aid tid) draft),
       tD.map (stripToolForInsert (get_next_version_no st aid tid)),
       rD.map (stripRelForInsert (get_next_version_no st aid tid))) ∧
    (publish_version_impl st aid tid uid vn rn sty svn).1.versions =
      st.versions ++
        [publishVersionRow st aid tid uid vn rn sty svn
          (get_next_version_no st aid tid)] ∧
    (publishVersionRow st aid tid uid vn rn sty svn
      (get_next_version_no st aid tid)).status = STATUS_RELEASED ∧
    query_current_version_no (publish_version_impl st aid tid uid vn rn sty svn).1
      aid tid = some (get_next_version_no st aid tid) := by
  obtain ⟨h1, h2, h3⟩ := query_agent_draft_parts hdraft
  have hdm : agentRowMatch aid tid 0 draft = true := List.find?_some h1
  obtain ⟨hda, hdt, _, _⟩ := agentRowMatch_iff.mp hdm
  have hn1 := get_next_version_no_pos st aid tid
  rw [publish_version_impl_ok st aid tid uid vn rn sty svn draft tD rD hdraft]
  refine ⟨rfl, ?_, rfl, rfl, ?_⟩
  · unfold query_agent_snapshot
    refine Prod.ext ?_ (Prod.ext ?_ ?_)
    · show ((st.agents ++ [stripAgentForInsert _ draft]).map
          (setCurrentVersion aid tid _)).find? (agentRowMatch aid tid _) = _
      rw [find?_map_of_pred_stable
          (agentRowMatch_setCurrentVersion aid aid tid tid _ _),
        List.find?_append, find?_agents_at_next_eq_none st aid tid]
      have hsnap : agentRowMatch aid tid (get_next_version_no st aid tid)
          (stripAgentForInsert (get_next_version_no st aid tid) draft) = true := by
        simp [agentRowMatch_iff, stripAgentForInsert, hda, hdt]
      have hnz : (stripAgentForInsert (get_next_version_no st aid tid)
          draft).version_no ≠ 0 := by
        simp only [stripAgentForInsert]
        omega
      simp [List.find?, hsnap,
        setCurrentVersion_of_nonzero_version aid tid _ _ hnz]
    · show (st.tools ++ tD.map (stripToolForInsert _)).filter
          (toolRowMatch aid tid _) = _
      rw [List.filter_append]
      have hnil : st.tools.filter
          (toolRowMatch aid tid (get_next_version_no st aid tid)) = [] := by
        rw [List.filter_eq_nil_iff]
        intro t ht hm
        obtain ⟨e1, e2, e3, e4⟩ := toolRowMatch_iff.mp hm
        have := hwfT t ht e1 e2 e4
        omega
      have hall : (tD.map (stripToolForInsert (get_next_version_no st aid tid))).filter
          (toolRowMatch aid tid (get_next_version_no st aid tid)) =
          tD.map (stripToolForInsert (get_next_version_no st aid tid)) := by
        rw [List.filter_eq_self]
        intro x hx
        obtain ⟨t, htD, rfl⟩ := List.mem_map.mp hx
        have htm : toolRowMatch aid tid 0 t = true := by
          have : t ∈ st.tools.filter (toolRowMatch aid tid 0) := h2 ▸ htD
          exact (List.mem_filter.mp this).2
        obtain ⟨e1, e2, _, _⟩ := toolRowMatch_iff.mp htm
        simp [toolRowMatch_iff, stripToolForInsert, e1, e2]
      rw [hnil, hall, List.nil_append]
    · show (st.relations ++ rD.map (stripRelForInsert _)).filter
          (relRowMatch aid tid _) = _
      rw [List.filter_append]
      have hnil : st.relations.filter
          (relRowMatch aid tid (get_next_version_no st aid tid)) = [] := by
        rw [List.filter_eq_nil_iff]
        intro r hr hm
        obtain ⟨e1, e2, e3, e4⟩ := relRowMatch_iff.mp hm
        have := hwfR r hr e1 e2 e4
        omega
      have hall : (rD.map (stripRelForInsert (get_next_version_no st aid tid))).filter
          (relRowMatch aid tid (get_next_version_no st aid tid)) =
          rD.map (stripRelForInsert (get_next_version_no st aid tid)) := by
        rw [List.filter_eq_self]
        intro x hx
        obtain ⟨r, hrD, rfl⟩ := List.mem_map.mp hx
        have hrm : relRowMatch aid tid 0 r = true := by
          have : r ∈ st.relations.filter (relRowMatch aid tid 0) := h3 ▸ hrD
          exact (List.mem_filter.mp this).2
        obtain ⟨e1, e2, _, _⟩ := relRowMatch_iff.mp hrm
        simp [relRowMatch_iff, stripRelForInsert, e1, e2]
      rw [hnil, hall, List.nil_append]
  · unfold query_current_version_no
    rw [find?_map_of_pred_stable
        (draftRowMatch_setCurrentVersion aid aid tid tid _),
      List.find?_append]
    have hfind : st.agents.find? (draftRowMatch aid tid) = some draft := h1
    rw [hfind]
    simp [setCurrentVersion, hdm, draftRowMatch]

/-- A successful publish implies the draft query returned a draft row. -/
theorem publish_ok_draft {st : DBState} {aid : Nat} {tid : String}
    {uid : String} {vn rn : Option String} {sty : String} {svn : Option Nat}
    {res : PublishResult}
    (h : (publish_version_impl st aid tid uid vn rn sty svn).2 = .ok res) :
    ∃ draft tD rD, query_agent_draft st aid tid = (some draft, tD, rD) := by
  rcases hq : query_agent_draft st aid tid with ⟨o, tD, rD⟩
  cases o with
  | none =>
    unfold publish_version_impl at h
    rw [hq] at h
    cases h
  | some d => exact ⟨d, tD, rD, rfl⟩

/-- Any live `AgentInfo` row of the agent is numbered below the next version
number. -/
theorem get_next_gt_of_live_row (st : DBState) (aid : Nat) (tid : String)
    {a : AgentRow} (ha : a ∈ st.agents) (h1 : a.agent_id = aid)
    (h2 : a.tenant_id = tid) (h4 : a.delete_flag = "N") :
    a.version_no < get_next_version_no st aid tid := by
  refine @agentRowMatch_version_lt_next st aid tid a.version_no a ha ?_
  simp [agentRowMatch_iff, h1, h2, h4]

/-- C5: two successful publishes of the same agent produce strictly
increasing version numbers, and a publish never mutates previously existing
registry rows, tool rows, relation rows, or non-draft agent rows — they all
survive content-equal into the final state. -/
theorem publish_twice_monotone_and_preserves_rows (st : DBState) (aid : Nat)
    (tid : String) (uid1 uid2 : String) (vn1 rn1 : Option String)
    (sty1 : String) (svn1 : Option Nat) (vn2 rn2 : Option String)
    (sty2 : String) (svn2 : Option Nat) (res1 res2 : PublishResult)
    (h1 : (publish_version_impl st aid tid uid1 vn1 rn1 sty1 svn1).2 = .ok res1)
    (h2 : (publish_version_impl
            (publish_version_impl st aid tid uid1 vn1 rn1 sty1 svn1).1
            aid tid uid2 vn2 rn2 sty2 svn2).2 = .ok res2) :
    res1.version_no < res2.version_no ∧
    (∀ v ∈ st.versions,
      v ∈ (publish_version_impl
            (publish_version_impl st aid tid uid1 vn1 rn1 sty1 svn1).1
            aid tid uid2 vn2 rn2 sty2 svn2).1.versions) ∧
    (∀ t ∈ st.tools,
      t ∈ (publish_version_impl
            (publish_version_impl st aid tid uid1 vn1 rn1 sty1 svn1).1
            aid tid uid2 vn2 rn2 sty2 svn2).1.tools) ∧
    (∀ r ∈ st.relations,
      r ∈ (publish_version_impl
            (publish_version_impl st aid tid uid1 vn1 rn1 sty1 svn1).1
            aid tid uid2 vn2 rn2 sty2 svn2).1.relations) ∧
    (∀ a ∈ st.agents, a.version_no ≠ 0 →
      a ∈ (publish_version_impl
            (publish_version_impl st aid tid uid1 vn1 rn1 sty1 svn1).1
            aid tid uid2 vn2 rn2 sty2 svn2).1.agents) := by
  obtain ⟨d1, tD1, rD1, hq1⟩ := publish_ok_draft h1
  obtain ⟨d2, tD2, rD2, hq2⟩ := publish_ok_draft h2
  have M1 := publish_version_impl_ok st aid tid uid1 vn1 rn1 sty1 svn1 d1 tD1 rD1 hq1
  have M2 := publish_version_impl_ok (publish_version_impl st aid tid uid1 vn1 rn1 sty1 svn1).1
    aid tid uid2 vn2 rn2 sty2 svn2 d2 tD2 rD2 hq2
  have hd1m : agentRowMatch aid tid 0 d1 = true :=
    List.find?_some (query_agent_draft_parts hq1).1
  obtain ⟨hd1a, hd1t, _, _⟩ := agentRowMatch_iff.mp hd1m
  have hr1 : res1.version_no = get_next_version_no st aid tid := by
    rw [M1] at h1
    cases h1
    rfl
  have hr2 : res2.version_no = get_next_version_no
      (publish_version_impl st aid tid uid1 vn1 rn1 sty1 svn1).1 aid tid := by
    rw [M2] at h2
    cases h2
    rfl
  have hn1 := get_next_version_no_pos st aid tid
  have hsnap_nz : (stripAgentForInsert (get_next_version_no st aid tid)
      d1).version_no ≠ 0 := by
    simp only [stripAgentForInsert]
    omega
  have hsnap_mem : stripAgentForInsert (get_next_version_no st aid tid) d1 ∈
      (publish_version_impl st aid tid uid1 vn1 rn1 sty1 svn1).1.agents := by
    rw [M1]
    have hmem : stripAgentForInsert (get_next_version_no st aid tid) d1 ∈
        st.agents ++ [stripAgentForInsert (get_next_version_no st aid tid) d1] :=
      List.mem_append_right _ (List.mem_singleton.mpr rfl)
    have := List.mem_map_of_mem
      (setCurrentVersion aid tid (get_next_version_no st aid tid)) hmem
    rwa [setCurrentVersion_of_nonzero_version aid tid _ _ hsnap_nz] at this
  constructor
  · rw [hr1, hr2]
    have := get_next_gt_of_live_row
      (publish_version_impl st aid tid uid1 vn1 rn1 sty1 svn1).1 aid tid
      hsnap_mem (by simp [stripAgentForInsert, hd1a])
      (by simp [stripAgentForInsert, hd1t]) (by simp [stripAgentForInsert])
    simpa [stripAgentForInsert] using this
  refine ⟨?_, ?_, ?_, ?_⟩
  · intro v hv
    rw [M2, M1]
    exact List.mem_append_left _ (List.mem_append_left _ hv)
  · intro t ht
    rw [M2, M1]
    exact List.mem_append_left _ (List.mem_append_left _ ht)
  · intro r hr
    rw [M2, M1]
    exact List.mem_append_left _ (List.mem_append_left _ hr)
  · intro a ha hnz
    have h1mem : a ∈ (publish_version_impl st aid tid uid1 vn1 rn1 sty1 svn1).1.agents := by
      rw [M1]
      have := List.mem_map_of_mem (setCurrentVersion aid tid (get_next_version_no st aid tid))
        (List.mem_append_left [stripAgentForInsert (get_next_version_no st aid tid) d1] ha)
      rwa [setCurrentVersion_of_nonzero_version aid tid _ _ hnz] at this
    rw [M2]
    have := List.mem_map_of_mem
      (setCurrentVersion aid tid (get_next_version_no
        (publish_version_impl st aid tid uid1 vn1 rn1 sty1 svn1).1 aid tid))
      (List.mem_append_left
        [stripAgentForInsert (get_next_version_no
          (publish_version_impl st aid tid uid1 vn1 rn1 sty1 svn1).1 aid tid) d2] h1mem)
    rwa [setCurrentVersion_of_nonzero_version aid tid _ _ hnz] at this

/-- C6: a successful rollback changes only the draft rows' pointer: the
registry, tool and relation tables (and the id sequence and model registry)
are untouched, no registry row is created, and each agent row is either
unchanged or is a live draft row with just `current_version_no` repointed. -/
theorem rollback_updates_only_pointer (st : DBState) (aid : Nat) (tid : String)
    (target : Nat) (res : RollbackResult)
    (h : (rollback_version_impl st aid tid target).2 = .ok res) :
    (rollback_version_impl st aid tid target).1.versions = st.versions ∧
    (rollback_version_impl st aid tid target).1.tools = st.tools ∧
    (rollback_version_impl st aid tid target).1.relations = st.relations ∧
    (rollback_version_impl st aid tid target).1.next_version_id =
      st.next_version_id ∧
    (rollback_version_impl st aid tid target).1.models = st.models ∧
    (rollback_version_impl st aid tid target).1.agents =
      st.agents.map (setCurrentVersion aid tid target) := by
  rcases hs : search_version_by_version_no st aid tid target with _ | v
  · unfold rollback_version_impl at h
    rw [hs] at h
    cases h
  · unfold rollback_version_impl at h ⊢
    rw [hs] at h ⊢
    simp only [update_agent_current_version] at h ⊢
    by_cases hz : (st.agents.countP (draftRowMatch aid tid) == 0) = true
    · rw [if_pos hz] at h
      cases h
    · rw [if_neg hz]
      exact ⟨rfl, rfl, rfl, rfl, rfl, rfl⟩

/-- C7: rolling back to a version with no live registry row raises the
not-found error before any write: the returned state is exactly the input
state, so the draft's `current_version_no` is unchanged. -/
theorem rollback_missing_target_is_noop (st : DBState) (aid : Nat)
    (tid : String) (target : Nat)
    (h : search_version_by_version_no st aid tid target = none) :
    rollback_version_impl st aid tid target =
      (st, .error ("Version " ++ toString target ++ " not found")) ∧
    query_current_version_no (rollback_version_impl st aid tid target).1 aid tid =
      query_current_version_no st aid tid := by
  have he : rollback_version_impl st aid tid target =
      (st, .error ("Version " ++ toString target ++ " not found")) := by
    unfold rollback_version_impl
    rw [h]
  exact ⟨he, by rw [he]⟩

theorem versionRowMatch_softDelete_eq_false (aid : Nat) (tid : String)
    (vno : Nat) (uid : String) (now : Nat) (v : VersionRow) :
    versionRowMatch aid tid vno
      (softDeleteVersionRow aid tid vno uid now v) = false := by
  unfold softDeleteVersionRow
  split
  · simp [versionRowMatch]
  · rename_i hnm
    exact Bool.eq_false_iff.mpr hnm

theorem mem_insertVersionDesc {v w : VersionRow} {l : List VersionRow} :
    w ∈ insertVersionDesc v l ↔ w = v ∨ w ∈ l := by
  induction l with
  | nil => simp [insertVersionDesc]
  | cons x xs ih =>
    unfold insertVersionDesc
    split
    · simp only [List.mem_cons, ih]
      tauto
    · simp only [List.mem_cons]

theorem mem_sortVersionDesc {w : VersionRow} {l : List VersionRow} :
    w ∈ sortVersionDesc l ↔ w ∈ l := by
  induction l with
  | nil => simp [sortVersionDesc]
  | cons x xs ih =>
    unfold sortVersionDesc
    rw [mem_insertVersionDesc, ih, List.mem_cons]

/-- C8: deleting the draft version (0) or the currently published version
fails; deleting any other existing version succeeds, soft-deletes exactly the
matching registry rows (`delete_flag := 'Y'`), and the version disappears
from `query_version_list`. -/
theorem delete_version_impl_rules (st : DBState) (aid : Nat) (tid : String)
    (uid : String) (vno : Nat) :
    (vno = 0 → isOkResult (delete_version_impl st aid tid uid vno).2 = false) ∧
    (query_current_version_no st aid tid = some vno →
      isOkResult (delete_version_impl st aid tid uid vno).2 = false) ∧
    ((search_version_by_version_no st aid tid vno).isSome = true →
     query_current_version_no st aid tid ≠ some vno → vno ≠ 0 →
      isOkResult (delete_version_impl st aid tid uid vno).2 = true ∧
      (delete_version_impl st aid tid uid vno).1.versions =
        st.versions.map (softDeleteVersionRow aid tid vno uid st.now) ∧
      search_version_by_version_no (delete_version_impl st aid tid uid vno).1
        aid tid vno = none ∧
      (∀ v ∈ query_version_list (delete_version_impl st aid tid uid vno).1
          aid tid, v.version_no ≠ vno)) := by
  refine ⟨?_, ?_, ?_⟩
  · rintro rfl
    unfold delete_version_impl
    rcases hs : search_version_by_version_no st aid tid 0 with _ | v
    · simp [isOkResult]
    · by_cases hc : query_current_version_no st aid tid = some 0
      all_goals simp [hc, isOkResult]
  · intro hcur
    unfold delete_version_impl
    rcases hs : search_version_by_version_no st aid tid vno with _ | v
    · simp [isOkResult]
    · rw [if_pos (by simp [hcur])]
      simp [isOkResult]
  · intro hsome hne hnz
    obtain ⟨v, hv⟩ := Option.isSome_iff_exists.mp hsome
    have hvm : versionRowMatch aid tid vno v = true := List.find?_some hv
    have hvin : v ∈ st.versions := List.mem_of_find?_eq_some hv
    have hcount : st.versions.countP (versionRowMatch aid tid vno) ≠ 0 := by
      have : 0 < st.versions.countP (versionRowMatch aid tid vno) :=
        List.countP_pos_iff.mpr ⟨v, hvin, hvm⟩
      omega
    have hdel : delete_version_impl st aid tid uid vno =
        ({ st with versions :=
            st.versions.map (softDeleteVersionRow aid tid vno uid st.now) },
         .ok ("Version " ++ toString vno ++ " deleted successfully")) := by
      unfold delete_version_impl
      rw [hv, if_neg (by simp [hne]), if_neg (by simp [hnz])]
      simp only [delete_version]
      rw [if_neg (by simp [hcount])]
    rw [hdel]
    refine ⟨rfl, rfl, ?_, ?_⟩
    · show (st.versions.map (softDeleteVersionRow aid tid vno uid st.now)).find?
        (versionRowMatch aid tid vno) = none
      rw [List.find?_eq_none]
      intro w hw
      obtain ⟨u, _, rfl⟩ := List.mem_map.mp hw
      simp [versionRowMatch_softDelete_eq_false]
    · intro w hw hwv
      have hw' := mem_sortVersionDesc.mp hw
      obtain ⟨hwm, hq⟩ := List.mem_filter.mp hw'
      obtain ⟨u, _, rfl⟩ := List.mem_map.mp hwm
      have : versionRowMatch aid tid vno
          (softDeleteVersionRow aid tid vno uid st.now u) = true := by
        simp only [Bool.and_eq_true, beq_iff_eq] at hq
        exact versionRowMatch_iff.mpr ⟨hq.1.1, hq.1.2, hwv, hq.2⟩
      rw [versionRowMatch_softDelete_eq_false] at this
      cases this

theorem mem_diffBlock {c : Prop} [Decidable c] {e x : DiffEntry} :
    x ∈ diffBlock c e ↔ c ∧ x = e := by
  by_cases h : c <;> simp [diffBlock, h]

theorem eq_of_mem_diffBlock {c : Prop} [Decidable c] {e x : DiffEntry}
    (h : x ∈ diffBlock c e) : x = e :=
  (mem_diffBlock.mp h).2

theorem mem_field_diffBlock {c : Prop} [Decidable c] {e : DiffEntry}
    {f : String} :
    f ∈ (diffBlock c e).map (·.field) ↔ c ∧ f = e.field := by
  by_cases h : c <;> simp [diffBlock, h]

theorem mkDifferences_self (d : VersionDetail) : mkDifferences d d = [] := by
  simp [mkDifferences, diffBlock]

/-- C9: `compare_versions_impl` diffs exactly the seven hardcoded fields:
every difference entry is one of them, a field appears in the differences
list exactly when its two values disagree (counts for tools and sub-agents),
and comparing a version with itself yields no differences. -/
theorem compare_versions_fixed_field_diff (st : DBState) (aid : Nat)
    (tid : String) (va vb : Nat) (da db : VersionDetail)
    (ha : getVersionDetailOrDraft st aid tid va = .ok da)
    (hb : getVersionDetailOrDraft st aid tid vb = .ok db) :
    compare_versions_impl st aid tid va vb =
      .ok { version_a := da, version_b := db,
            differences := mkDifferences da db } ∧
    (∀ e ∈ mkDifferences da db, e.field ∈
      ["name", "model_name", "max_steps", "description", "duty_prompt",
       "tools_count", "sub_agents_count"]) ∧
    (("name" ∈ (mkDifferences da db).map (·.field)) ↔
      da.payload.name ≠ db.payload.name) ∧
    (("model_name" ∈ (mkDifferences da db).map (·.field)) ↔
      da.model_name ≠ db.model_name) ∧
    (("max_steps" ∈ (mkDifferences da db).map (·.field)) ↔
      da.payload.max_steps ≠ db.payload.max_steps) ∧
    (("description" ∈ (mkDifferences da db).map (·.field)) ↔
      da.payload.description ≠ db.payload.description) ∧
    (("duty_prompt" ∈ (mkDifferences da db).map (·.field)) ↔
      da.payload.duty_prompt ≠ db.payload.duty_prompt) ∧
    (("tools_count" ∈ (mkDifferences da db).map (·.field)) ↔
      da.tools.length ≠ db.tools.length) ∧
    (("sub_agents_count" ∈ (mkDifferences da db).map (·.field)) ↔
      da.sub_agent_id_list.length ≠ db.sub_agent_id_list.length) ∧
    (va = vb → mkDifferences da db = []) := by
  refine ⟨?_, ?_, ?_, ?_, ?_, ?_, ?_, ?_, ?_, ?_⟩
  · unfold compare_versions_impl
    rw [ha, hb]
  · intro e he
    simp only [mkDifferences, List.mem_append] at he
    rcases he with ((((((h | h) | h) | h) | h) | h) | h) <;>
      rw [eq_of_mem_diffBlock h] <;> simp
  · simp only [mkDifferences, List.map_append, List.mem_append,
      mem_field_diffBlock]
    simp
  · simp only [mkDifferences, List.map_append, List.mem_append,
      mem_field_diffBlock]
    simp
  · simp only [mkDifferences, List.map_append, List.mem_append,
      mem_field_diffBlock]
    simp
  · simp only [mkDifferences, List.map_append, List.mem_append,
      mem_field_diffBlock]
    simp
  · simp only [mkDifferences, List.map_append, List.mem_append,
      mem_field_diffBlock]
    simp
  · simp only [mkDifferences, List.map_append, List.mem_append,
      mem_field_diffBlock]
    simp
  · simp only [mkDifferences, List.map_append, List.mem_append,
      mem_field_diffBlock]
    simp
  · rintro rfl
    rw [ha] at hb
    cases hb
    exact mkDifferences_self da

/-- C2: on an invitation with `capacity = 5`, `usage_count = 5` and
`now > expiry_date` whose stored status is `IN_USE`, the read path
(`get_invitation_by_code` via `_calculate_current_status`) resolves the
status to `RUN_OUT` — its capacity check runs after and overwrites the
expiry check — while the write path (`update_invitation_code_status`, whose
comment documents the priority EXPIRE > RUN_OUT > IN_USE) resolves the same
input to `EXPIRE`. -/
theorem invitation_read_write_status_paths_diverge :
    sampleInvitation.capacity = 5 ∧
    sampleInvitation.expiry_date = some 100 ∧
    sampleInvitation.status = "IN_USE" ∧
    count_invitation_usage sampleInvStateFull 1 = 5 ∧
    (get_invitation_by_code 200 sampleInvStateFull "XYZ123").map (·.status) =
      some "RUN_OUT" ∧
    (query_invitation_by_id
      (update_invitation_code_status 200 sampleInvStateFull 1).1 1).map (·.status) =
      some "EXPIRE" := by
  decide

theorem generateUniqueAux_ok {st : InvState} {codes : Nat → String}
    {attempts fuel : Nat} {c : String}
    (h : generateUniqueAux st codes attempts fuel = .ok c) :
    ∃ i, attempts ≤ i ∧ i < attempts + fuel ∧ c = pyUpper (codes i) ∧
      query_invitation_by_code st (codes i) = none := by
  induction fuel generalizing attempts with
  | zero => cases h
  | succ n ih =>
    unfold generateUniqueAux at h
    by_cases hq : (query_invitation_by_code st (codes attempts)).isSome = true
    · rw [if_pos hq] at h
      obtain ⟨i, h1, h2, h3, h4⟩ := ih h
      exact ⟨i, by omega, by omega, h3, h4⟩
    · rw [if_neg hq] at h
      cases h
      refine ⟨attempts, Nat.le_refl _, by omega, rfl, ?_⟩
      exact Option.not_isSome_iff_eq_none.mp (by simpa using hq)

theorem generateUniqueAux_error {st : InvState} {codes : Nat → String} :
    ∀ fuel attempts,
      (∀ j, j < fuel →
        (query_invitation_by_code st (codes (attempts + j))).isSome = true) →
      generateUniqueAux st codes attempts fuel =
        .error "Failed to generate unique invitation code after 100 attempts" := by
  intro fuel
  induction fuel with
  | zero => intro attempts _; rfl
  | succ n ih =>
    intro attempts hall
    unfold generateUniqueAux
    rw [if_pos (by simpa using hall 0 (Nat.succ_pos n))]
    refine ih (attempts + 1) fun j hj => ?_
    have := hall (j + 1) (by omega)
    rwa [show attempts + (j + 1) = attempts + 1 + j by omega] at this

/-- C3 counterexample: with the uppercase code `ABC123` stored and the random
stream producing the lowercase candidate `abc123`, the generator's uniqueness
check passes on the lowercase candidate, yet the returned (uppercased) code
`ABC123` already exists — `query_invitation_by_code` is truthy on it. -/
theorem generate_unique_code_can_return_existing_code :
    generate_unique_invitation_code sampleInvStateABC (fun _ => "abc123") =
      .ok "ABC123" ∧
    (query_invitation_by_code sampleInvStateABC "ABC123").isSome = true := by
  exact ⟨by decide, by decide⟩

/-- C3 (amended): every code `_generate_unique_invitation_code` returns is
the uppercasing of a candidate on which `query_invitation_by_code` returned
falsy — the uniqueness check applies to the candidate as generated, before
the final uppercasing — and if all 100 attempts collide the function raises
a fatal error instead of returning. -/
theorem generate_unique_code_checks_raw_candidate (st : InvState)
    (codes : Nat → String) :
    (∀ c, generate_unique_invitation_code st codes = .ok c →
      ∃ i, i < 100 ∧ c = pyUpper (codes i) ∧
        query_invitation_by_code st (codes i) = none) ∧
    ((∀ i, i < 100 → (query_invitation_by_code st (codes i)).isSome = true) →
      generate_unique_invitation_code st codes =
        .error "Failed to generate unique invitation code after 100 attempts") := by
  constructor
  · intro c h
    obtain ⟨i, h1, h2, h3, h4⟩ := generateUniqueAux_ok h
    exact ⟨i, by omega, h3, h4⟩
  · intro hall
    exact generateUniqueAux_error 100 0 fun j hj => by simpa using hall j hj

/-- Witness for the amended C3 theorem at a concrete state and stream. -/
theorem generate_unique_code_checks_raw_candidate_witness :
    generate_unique_invitation_code sampleInvStateABC (fun _ => "ABC123") =
      .error "Failed to generate unique invitation code after 100 attempts" :=
  (generate_unique_code_checks_raw_candidate sampleInvStateABC
    (fun _ => "ABC123")).2 fun _ _ => by decide

theorem check_invitation_available_iff (st : InvState) (code : String) :
    check_invitation_available st code = true ↔
      ∃ inv, query_invitation_by_code st code = some inv ∧
        inv.status = "IN_USE" ∧
        count_invitation_usage st inv.invitation_id < inv.capacity := by
  unfold check_invitation_available
  rcases hq : query_invitation_by_code st code with _ | inv
  · simp
  · by_cases hst : inv.status = "IN_USE"
    · simp [hst]
    · simp [hst]

theorem query_invitation_by_code_setExpiryAll (st : InvState) (e : Option Nat)
    (code : String) :
    query_invitation_by_code (setExpiryAll st e) code =
      (query_invitation_by_code st code).map
        fun i => { i with expiry_date := e } := by
  unfold query_invitation_by_code setExpiryAll
  exact @find?_map_of_pred_stable Invitation
    (fun i => { i with expiry_date := e })
    (fun i => i.invitation_code == code && i.delete_flag == "N")
    (fun i => rfl) st.invitations

/-- C10: `check_invitation_available` decides availability from the stored
status and the usage count only — it is `true` exactly when the code exists
with persisted status `IN_USE` and `usage_count < capacity`, its value is
unchanged under arbitrary rewrites of every `expiry_date`, and whenever it
is `true` the gate of `use_invitation_code` passes and the use succeeds. -/
theorem check_invitation_available_stored_status_only (st : InvState)
    (code : String) :
    (check_invitation_available st code = true ↔
      ∃ inv, query_invitation_by_code st code = some inv ∧
        inv.status = "IN_USE" ∧
        count_invitation_usage st inv.invitation_id < inv.capacity) ∧
    (∀ e, check_invitation_available (setExpiryAll st e) code =
      check_invitation_available st code) ∧
    (∀ now uid, check_invitation_available st code = true →
      isOkResult (use_invitation_code now st code uid).2 = true) := by
  refine ⟨check_invitation_available_iff st code, ?_, ?_⟩
  · intro e
    unfold check_invitation_available
    rw [query_invitation_by_code_setExpiryAll]
    rcases hq : query_invitation_by_code st code with _ | inv
    · rfl
    · rfl
  · intro now uid h
    unfold use_invitation_code
    rw [if_neg (by simp [h])]
    obtain ⟨inv, hq, _, _⟩ := (check_invitation_available_iff st code).mp h
    rw [hq]
    simp only [add_invitation_record]
    rfl

/-! Counterexample and witnesses over the concrete sample states. -/

/-- C1 counterexample: the sample draft holds the disabled tool row
`tool_id = 12` (`enabled = false`); publishing succeeds and the version-1
snapshot contains a copy of that disabled row — `publish_version_impl` copies
draft tool rows regardless of `enabled`, so a draft tool row with
`enabled = false` IS copied into the snapshot. -/
theorem publish_copies_disabled_tool_row :
    sampleToolDisabled.enabled = false ∧
    (publish_version_impl sampleState 1 "t1" "u1" (some "v1") none
      SOURCE_TYPE_NORMAL none).2 =
      .ok { id := 1, version_no := 1,
            message := "Version published successfully" } ∧
    (query_agent_snapshot sampleState1 1 "t1" 1).2.1 =
      [stripToolForInsert 1 sampleToolEnabled,
       stripToolForInsert 1 sampleToolDisabled] ∧
    (stripToolForInsert 1 sampleToolDisabled).enabled = false := by
  decide

/-- Witness for the amended C1 theorem at the sample state. -/
theorem publish_copies_draft_row_sets_witness :
    query_agent_snapshot
        (publish_version_impl sampleState 1 "t1" "u1" (some "v1") none
          SOURCE_TYPE_NORMAL none).1 1 "t1"
        (get_next_version_no sampleState 1 "t1") =
      (some (stripAgentForInsert (get_next_version_no sampleState 1 "t1")
        sampleDraft),
       [sampleToolEnabled, sampleToolDisabled].map
         (stripToolForInsert (get_next_version_no sampleState 1 "t1")),
       [sampleRel].map
         (stripRelForInsert (get_next_version_no sampleState 1 "t1"))) :=
  (publish_copies_draft_row_sets sampleState 1 "t1" "u1" (some "v1") none
    SOURCE_TYPE_NORMAL none sampleDraft [sampleToolEnabled, sampleToolDisabled]
    [sampleRel] (by decide) (by decide) (by decide)).2.1

/-- Witness for the C4 theorem at the sample state (draft only, no
published rows). -/
theorem publish_first_version_is_one_witness :
    (publish_version_impl sampleState 1 "t1" "u1" (some "v1") none
      SOURCE_TYPE_NORMAL none).2 =
      .ok { id := sampleState.next_version_id, version_no := 1,
            message := "Version published successfully" } ∧
    query_current_version_no
      (publish_version_impl sampleState 1 "t1" "u1" (some "v1") none
        SOURCE_TYPE_NORMAL none).1 1 "t1" = some 1 :=
  publish_first_version_is_one sampleState 1 "t1" "u1" (some "v1") none
    SOURCE_TYPE_NORMAL none sampleDraft [sampleToolEnabled, sampleToolDisabled]
    [sampleRel] (by decide) (by decide)

/-- Witness for the C5 theorem: publishing twice on top of `sampleState1`
(which already holds version 1) yields versions 2 then 3, and the version-1
registry row survives both publishes. -/
theorem publish_twice_monotone_witness :
    ({ id := 2, version_no := 2,
       message := "Version published successfully" } : PublishResult).version_no <
      ({ id := 3, version_no := 3,
         message := "Version published successfully" } : PublishResult).version_no ∧
    sampleVersionRow1 ∈
      (publish_version_impl
        (publish_version_impl sampleState1 1 "t1" "u2" none none
          SOURCE_TYPE_NORMAL none).1 1 "t1" "u3" none none
        SOURCE_TYPE_NORMAL none).1.versions :=
  ⟨(publish_twice_monotone_and_preserves_rows sampleState1 1 "t1" "u2" "u3"
      none none SOURCE_TYPE_NORMAL none none none SOURCE_TYPE_NORMAL none
      { id := 2, version_no := 2, message := "Version published successfully" }
      { id := 3, version_no := 3, message := "Version published successfully" }
      (by decide) (by decide)).1,
   (publish_twice_monotone_and_preserves_rows sampleState1 1 "t1" "u2" "u3"
      none none SOURCE_TYPE_NORMAL none none none SOURCE_TYPE_NORMAL none
      { id := 2, version_no := 2, message := "Version published successfully" }
      { id := 3, version_no := 3, message := "Version published successfully" }
      (by decide) (by decide)).2.1 sampleVersionRow1 (by decide)⟩

/-- Witness for the C6 theorem: rolling `sampleState2` back to version 1. -/
theorem rollback_updates_only_pointer_witness :
    (rollback_version_impl sampleState2 1 "t1" 1).1.versions =
      sampleState2.versions ∧
    (rollback_version_impl sampleState2 1 "t1" 1).1.tools =
      sampleState2.tools ∧
    (rollback_version_impl sampleState2 1 "t1" 1).1.relations =
      sampleState2.relations ∧
    (rollback_version_impl sampleState2 1 "t1" 1).1.next_version_id =
      sampleState2.next_version_id ∧
    (rollback_version_impl sampleState2 1 "t1" 1).1.models =
      sampleState2.models ∧
    (rollback_version_impl sampleState2 1 "t1" 1).1.agents =
      sampleState2.agents.map (setCurrentVersion 1 "t1" 1) :=
  rollback_updates_only_pointer sampleState2 1 "t1" 1
    { message := "Successfully rolled back to version 1", version_no := 1,
      version_name := some "v1" } (by decide)

/-- Witness for the C7 theorem: rolling `sampleState2` back to the
nonexistent version 9. -/
theorem rollback_missing_target_is_noop_witness :
    rollback_version_impl sampleState2 1 "t1" 9 =
      (sampleState2, .error ("Version " ++ toString 9 ++ " not found")) ∧
    query_current_version_no (rollback_version_impl sampleState2 1 "t1" 9).1
      1 "t1" = query_current_version_no sampleState2 1 "t1" :=
  rollback_missing_target_is_noop sampleState2 1 "t1" 9 (by decide)

/-- Witness for the C8 theorem on `sampleState2` (current version 2,
deletable version 1). -/
theorem delete_version_impl_rules_witness :
    isOkResult (delete_version_impl sampleState2 1 "t1" "u9" 0).2 = false ∧
    isOkResult (delete_version_impl sampleState2 1 "t1" "u9" 2).2 = false ∧
    isOkResult (delete_version_impl sampleState2 1 "t1" "u9" 1).2 = true ∧
    search_version_by_version_no (delete_version_impl sampleState2 1 "t1" "u9" 1).1
      1 "t1" 1 = none :=
  ⟨(delete_version_impl_rules sampleState2 1 "t1" "u9" 0).1 rfl,
   (delete_version_impl_rules sampleState2 1 "t1" "u9" 2).2.1 (by decide),
   ((delete_version_impl_rules sampleState2 1 "t1" "u9" 1).2.2 (by decide)
     (by decide) (by decide)).1,
   ((delete_version_impl_rules sampleState2 1 "t1" "u9" 1).2.2 (by decide)
     (by decide) (by decide)).2.2.1⟩

/-- Witness for the C9 theorem: comparing version 1 of the sample agent with
itself succeeds and yields no differences. -/
theorem compare_versions_fixed_field_diff_witness :
    compare_versions_impl sampleState1 1 "t1" 1 1 =
      .ok { version_a := sampleDetail1, version_b := sampleDetail1,
            differences := mkDifferences sampleDetail1 sampleDetail1 } ∧
    mkDifferences sampleDetail1 sampleDetail1 = [] :=
  ⟨(compare_versions_fixed_field_diff sampleState1 1 "t1" 1 1 sampleDetail1
      sampleDetail1 (by decide) (by decide)).1,
   (compare_versions_fixed_field_diff sampleState1 1 "t1" 1 1 sampleDetail1
      sampleDetail1 (by decide) (by decide)).2.2.2.2.2.2.2.2.2 rfl⟩

/-- Witness for the C10 theorem: the expired-but-stored-`IN_USE` sample code
is reported available, its availability ignores every `expiry_date`, and
using it succeeds. -/
theorem check_invitation_available_stored_status_only_witness :
    check_invitation_available sampleInvStatePartial "XYZ123" = true ∧
    check_invitation_available (setExpiryAll sampleInvStatePartial (some 0))
      "XYZ123" = check_invitation_available sampleInvStatePartial "XYZ123" ∧
    isOkResult (use_invitation_code 200 sampleInvStatePartial "XYZ123" "u9").2 =
      true :=
  ⟨by decide,
   (check_invitation_available_stored_status_only sampleInvStatePartial
     "XYZ123").2.1 (some 0),
   (check_invitation_available_stored_status_only sampleInvStatePartial
     "XYZ123").2.2 200 "u9" (by decide)⟩

end Nexent
